import Mathlib

/-!
Bridge adapter (`adapters/bridge.go`).

A shallow embedding of the bridge adapter: `Perform`, `resumeBridge`,
`handleNewRun`, `responseToRunResult`, `postToExternalAdapter`,
`baRunResultError` and `bridgeOutgoing.MarshalJSON`.

The adapter is written against the `store/models` package and against the
HTTP and JSON libraries.  The data types of `models` are declared below from
the data model of the specification; the operations the adapter calls on
them and on the libraries are either defined from the specification (where it
fixes them) or collected as fields of `Env`, so that every statement about
the adapter holds for every implementation of them.  Go `error` values are
represented by their message (`Option String`, `none` for `nil`).

An outbound HTTP call is an effect; every function that may perform one
returns, next to its Go result, the list of requests handed to the HTTP client.
-/

namespace models

/-- Modelled from the spec: the `models.JSON` type is declared outside
`adapters/bridge.go`.  A JSON value as a recursive tagged union
(null / bool / number / string / array / object). -/
inductive JSON where
  | null
  | bool (b : Bool)
  | num (n : Int)
  | str (s : String)
  | arr (elems : List JSON)
  | obj (members : List (String × JSON))

namespace JSON

/-- The member names of an object, in order; no names for any other value. -/
def keys : JSON → List String
  | obj ms => ms.map Prod.fst
  | _ => []

/-- First member of a member list carrying the given name. -/
def lookup (k : String) : List (String × JSON) → Option JSON
  | [] => none
  | (k', v) :: ms => if k' = k then some v else lookup k ms

/-- The value of member `k` of an object. -/
def get? (k : String) : JSON → Option JSON
  | obj ms => lookup k ms
  | _ => none

/-- Whether a value is an object. -/
def isObj : JSON → Bool
  | obj _ => true
  | _ => false

/-- Replace the value of member `k` in place, or add the member at the end. -/
def setMember (k : String) (v : JSON) : List (String × JSON) → List (String × JSON)
  | [] => [(k, v)]
  | (k', v') :: ms => if k' = k then (k, v) :: ms else (k', v') :: setMember k v ms

end JSON

/-- Modelled from the spec: the `models.RunStatus` type is declared outside
`adapters/bridge.go`.  The statuses of the data model; `Unstarted` is the
status of a result that declares none. -/
inductive RunStatus where
  | Unstarted
  | InProgress
  | PendingBridge
  | PendingConfirmations
  | Completed
  | Errored
  deriving DecidableEq, Repr

/-- Modelled from the spec: `RunStatus.Finished` is declared outside
`adapters/bridge.go`.  Only `Completed` and `Errored` are terminal. -/
def RunStatus.Finished : RunStatus → Bool
  | .Completed => true
  | .Errored => true
  | _ => false

/-- Modelled from the spec: `RunStatus.PendingBridge` (the predicate) is
declared outside `adapters/bridge.go`.  True exactly of the status
`PendingBridge`. -/
def RunStatus.isPendingBridge : RunStatus → Bool
  | .PendingBridge => true
  | _ => false

/-- Modelled from the spec: the `models.RunResult` type is declared outside
`adapters/bridge.go`.  The unit of state flowing through the pipeline: owning
job run, accumulated data, status and optional error message. -/
structure RunResult where
  JobRunID : String
  Data : JSON
  Status : RunStatus
  ErrorMessage : Option String

/-- Modelled from the spec: `RunResult.WithError` is declared outside
`adapters/bridge.go`.  The failure is attached to the result as `Errored`
with the given message; the other fields are kept. -/
def RunResult.WithError (rr : RunResult) (err : String) : RunResult :=
  { rr with ErrorMessage := some err, Status := RunStatus.Errored }

/-- Modelled from the spec: the `models.BridgeRunResult` type is declared
outside `adapters/bridge.go`.  The parsed response of the external adapter; the
adapter reads only its embedded `RunResult`. -/
structure BridgeRunResult where
  RunResult : RunResult

/-- Modelled from the spec: the `models.WebURL` type is declared outside
`adapters/bridge.go`.  A URL by components; the zero value (all components
empty) is the unset URL. -/
structure WebURL where
  Scheme : String := ""
  Host : String := ""
  Path : String := ""
  RawQuery : String := ""
  Fragment : String := ""
  deriving DecidableEq, Repr

/-- Modelled from the spec: the `models.BridgeType` type is declared outside
`adapters/bridge.go`.  The adapter's target URL and outgoing token. -/
structure BridgeType where
  URL : WebURL
  OutgoingToken : String

end models

namespace store

/-- Modelled from the spec: the configuration provider; the adapter reads
only the base response URL. -/
structure Config where
  BridgeResponseURL : models.WebURL

/-- Modelled from the spec: the `store.Store` the adapter is handed; the
adapter reads only its configuration. -/
structure Store where
  Config : Config

end store

namespace http

/-- An outbound HTTP request as the adapter builds it. -/
structure Request where
  Method : String
  URL : String
  Header : List (String × String)
  Body : String

/-- An HTTP response as the adapter reads it: the status code, the bytes
`ioutil.ReadAll` yields from the body and the error it yields, if any. -/
structure Response where
  StatusCode : Int
  Body : String
  ReadErr : Option String

/-- The `Header.Set` method: the value of a header is replaced, or the header is added. -/
def Request.SetHeader (r : Request) (k v : String) : Request :=
  { r with Header := r.Header.filter (fun kv => kv.1 ≠ k) ++ [(k, v)] }

end http

namespace adapters

open models

/-- The operations `bridge.go` calls that are defined outside it.

* `JSONMerge base incoming` is `base.Merge(incoming)` of `models.JSON`;
* `RunResultMerge base incoming` is `base.Merge(incoming)` of `models.RunResult`;
  both return a value and an error, as in Go, and the adapter uses the value
  also when the error is set;
* `URLString u` is `u.String()` of `models.WebURL`, the string form of a URL;
* `Unmarshal body` is `json.Unmarshal` into a `models.BridgeRunResult`;
* `Marshal` is the encoding of a JSON document to bytes by `json.Marshal`;
* `NewRequestErr method url` is the error of `http.NewRequest`, if any;
* `Do` is `http.Client.Do`, the transport. -/
structure Env where
  JSONMerge : JSON → JSON → JSON × Option String
  RunResultMerge : RunResult → RunResult → RunResult × Option String
  URLString : WebURL → String
  Unmarshal : String → Except String BridgeRunResult
  Marshal : JSON → Except String String
  NewRequestErr : String → String → Option String
  Do : http.Request → Except String http.Response

/-- The `Bridge` adapter: the bridge type and the optional static params. -/
structure Bridge where
  BridgeType : BridgeType
  Params : Option JSON

/-- The `bridgeOutgoing` type: a `RunResult` with the response URL. -/
structure bridgeOutgoing where
  RunResult : RunResult
  ResponseURL : WebURL

/-- The `%v` formatting of an `int`: its decimal digits. -/
def fmtInt (n : Int) : String := toString n

/-- The `resumeBridge` function: the status becomes `InProgress`. -/
def resumeBridge (input : RunResult) : RunResult :=
  { input with Status := RunStatus.InProgress }

/-- The `baRunResultError` function: the result with the error
`"ExternalBridge <str>: <err>"` attached. -/
def baRunResultError (inp : RunResult) (str : String) (err : String) : RunResult :=
  inp.WithError ("ExternalBridge " ++ str ++ ": " ++ err)

/-- The anonymous struct of `bridgeOutgoing.MarshalJSON` as the JSON object
its field tags describe: `id`, `data`, and `responseURL` with `omitempty`. -/
def bridgeOutgoing.anon (env : Env) (bp : bridgeOutgoing) : JSON :=
  JSON.obj
    ([("id", JSON.str bp.RunResult.JobRunID), ("data", bp.RunResult.Data)] ++
      (if env.URLString bp.ResponseURL = "" then []
       else [("responseURL", JSON.str (env.URLString bp.ResponseURL))]))

/-- The `bridgeOutgoing.MarshalJSON` method: the encoding of the anonymous struct. -/
def bridgeOutgoing.MarshalJSON (env : Env) (bp : bridgeOutgoing) : Except String String :=
  env.Marshal (bp.anon env)

/-- The `http.NewRequest` function: the request with the given method, URL and body and no
headers, unless the library rejects the method or URL. -/
def NewRequest (env : Env) (method url body : String) : Except String http.Request :=
  match env.NewRequestErr method url with
  | some e => .error e
  | none => .ok { Method := method, URL := url, Header := [], Body := body }

/-- The `Bridge.postToExternalAdapter` method: the response body or an error, and the
requests handed to the HTTP client. -/
def Bridge.postToExternalAdapter (env : Env) (ba : Bridge) (input : RunResult)
    (bridgeResponseURL : WebURL) : Except String String × List http.Request :=
  match bridgeOutgoing.MarshalJSON env { RunResult := input, ResponseURL := bridgeResponseURL } with
  | .error err => (.error ("marshaling request body: " ++ err), [])
  | .ok body =>
    match NewRequest env "POST" (env.URLString ba.BridgeType.URL) body with
    | .error err => (.error ("building outgoing bridge http post: " ++ err), [])
    | .ok request =>
      let request := (request.SetHeader "Authorization"
        ("Bearer " ++ ba.BridgeType.OutgoingToken)).SetHeader "Content-Type" "application/json"
      match env.Do request with
      | .error err => (.error ("POST request: " ++ err), [request])
      | .ok resp =>
        if resp.StatusCode ≥ 400 then
          (.error ("POST response: " ++ (fmtInt resp.StatusCode ++ " " ++ resp.Body)), [request])
        else
          match resp.ReadErr with
          | some err => (.error err, [request])
          | none => (.ok resp.Body, [request])

/-- The `responseToRunResult` function: the response body parsed and merged into the input. -/
def responseToRunResult (env : Env) (body : String) (input : RunResult) : RunResult :=
  match env.Unmarshal body with
  | .error err => baRunResultError input "unmarshaling JSON" err
  | .ok brr =>
    match env.RunResultMerge input brr.RunResult with
    | (rr, some err) => baRunResultError rr "Unable to merge received payload" err
    | (rr, none) => rr

/-- The first step of `Bridge.handleNewRun`: the static params, when
configured, are merged into the data of the input; the input is updated with
the value the merge returns before the error is looked at. -/
def Bridge.mergeParams (env : Env) (ba : Bridge) (input : RunResult) :
    RunResult × Option String :=
  match ba.Params with
  | none => (input, none)
  | some params =>
    let r := env.JSONMerge input.Data params
    ({ input with Data := r.1 }, r.2)

/-- The second step of `Bridge.handleNewRun`: the response URL for a run. -/
def responseURLFor (bridgeResponseURL : WebURL) (jobRunID : String) : WebURL :=
  if bridgeResponseURL ≠ ({} : WebURL) then
    { bridgeResponseURL with Path := bridgeResponseURL.Path ++ ("/v2/runs/" ++ jobRunID) }
  else bridgeResponseURL

/-- The `Bridge.handleNewRun` method: static params, response URL, post, and
the interpretation of the answer. -/
def Bridge.handleNewRun (env : Env) (ba : Bridge) (input : RunResult)
    (bridgeResponseURL : WebURL) : RunResult × List http.Request :=
  match ba.mergeParams env input with
  | (input, some err) => (baRunResultError input "handling data param" err, [])
  | (input, none) =>
    let responseURL := responseURLFor bridgeResponseURL input.JobRunID
    match ba.postToExternalAdapter env input responseURL with
    | (.error err, sent) => (baRunResultError input "post to external adapter" err, sent)
    | (.ok body, sent) => (responseToRunResult env body input, sent)

/-- The `Bridge.Perform` method: the resulting `RunResult` and the requests handed to
the HTTP client. -/
def Bridge.Perform (env : Env) (ba : Bridge) (input : RunResult) (store : store.Store) :
    RunResult × List http.Request :=
  if input.Status.Finished then
    (input, [])
  else if input.Status.isPendingBridge then
    (resumeBridge input, [])
  else
    ba.handleNewRun env input store.Config.BridgeResponseURL

end adapters

/-! Statement vocabulary: the inputs of the new-run path, the request the
adapter builds, and the transport answering it. -/

namespace adapters

open models

/-- A new-run input: its status is neither `Completed`, `Errored` nor
`PendingBridge`. -/
def NewRun (r : RunResult) : Prop :=
  r.Status ≠ RunStatus.Completed ∧ r.Status ≠ RunStatus.Errored ∧
    r.Status ≠ RunStatus.PendingBridge

instance (r : RunResult) : Decidable (NewRun r) := by
  unfold NewRun; infer_instance

/-- The request `postToExternalAdapter` hands to the HTTP client for an encoded
body: a POST to the bridge URL with the bearer token and the content type. -/
def Bridge.request (env : Env) (ba : Bridge) (body : String) : http.Request :=
  { Method := "POST"
    URL := env.URLString ba.BridgeType.URL
    Header := [("Authorization", "Bearer " ++ ba.BridgeType.OutgoingToken),
               ("Content-Type", "application/json")]
    Body := body }

/-- The outgoing payload for `input` and `url` is encoded to `body` and the
request carrying it is accepted by `http.NewRequest`. -/
def Bridge.Encodes (env : Env) (ba : Bridge) (input : RunResult) (url : WebURL)
    (body : String) : Prop :=
  bridgeOutgoing.MarshalJSON env { RunResult := input, ResponseURL := url } = .ok body ∧
    env.NewRequestErr "POST" (env.URLString ba.BridgeType.URL) = none

/-- The request for `input` and `url` is built and the transport answers it
with the response `resp`. -/
def Bridge.Answers (env : Env) (ba : Bridge) (input : RunResult) (url : WebURL)
    (resp : http.Response) : Prop :=
  ∃ body, ba.Encodes env input url body ∧ env.Do (ba.request env body) = .ok resp

end adapters

/-! A concrete environment, used to evaluate the adapter on the scenarios of
the specification. -/

namespace models

namespace JSON

mutual
/-- Compact text of a JSON value. -/
def render : JSON → String
  | null => "null"
  | bool b => if b then "true" else "false"
  | num n => toString n
  | str s => "\"" ++ s ++ "\""
  | arr es => "[" ++ renderElems es ++ "]"
  | obj ms => "\x7b" ++ renderMembers ms ++ "\x7d"
/-- Compact text of the elements of an array. -/
def renderElems : List JSON → String
  | [] => ""
  | [e] => render e
  | e :: es => render e ++ "," ++ renderElems es
/-- Compact text of the members of an object. -/
def renderMembers : List (String × JSON) → String
  | [] => ""
  | [(k, v)] => "\"" ++ k ++ "\":" ++ render v
  | (k, v) :: ms => "\"" ++ k ++ "\":" ++ render v ++ "," ++ renderMembers ms
end

/-- The members of an object; a value that is not an object has none. -/
def members : JSON → List (String × JSON)
  | obj ms => ms
  | _ => []

mutual
/-- Whether a value can be encoded again: every number in it is finite as a
64-bit floating-point number, that is, below `2^1024 - 2^970` in magnitude. -/
def encodable : JSON → Bool
  | num n => decide (n.natAbs < (2 ^ 256) ^ 4 - (2 ^ 194) ^ 5)
  | arr es => encodableElems es
  | obj ms => encodableMembers ms
  | _ => true
/-- Whether every element of an array can be encoded again. -/
def encodableElems : List JSON → Bool
  | [] => true
  | e :: es => encodable e && encodableElems es
/-- Whether every member of an object can be encoded again. -/
def encodableMembers : List (String × JSON) → Bool
  | [] => true
  | (_, v) :: ms => encodable v && encodableMembers ms
end

end JSON

/-- The merge of JSON data in the example environment, standing for
`models.JSON.Merge`, which is declared outside `adapters/bridge.go`.  Keys only
in `incoming` are added and keys in both take the value of `incoming`; a value
that is not an object contributes no keys.  The merged object is encoded
again, and the merge fails, returning the zero value `null` with the error,
when it holds a number that is not finite as a 64-bit floating-point number. -/
def JSON.Merge (base incoming : JSON) : JSON × Option String :=
  let merged := JSON.obj
    (incoming.members.foldl (fun acc kv => JSON.setMember kv.1 kv.2 acc) base.members)
  if merged.encodable then (merged, none)
  else (JSON.null, some "json: unsupported value: +Inf")

/-- Modelled from the spec: `MergeResult(base, incoming)` of the merge engine,
declared outside `adapters/bridge.go`.  The data is merged by `JSON.Merge`; a
status the incoming result declares replaces the status; an error the incoming
result carries is recorded and the status becomes `Errored`. -/
def MergeResult (base incoming : RunResult) : Except String RunResult :=
  match JSON.Merge base.Data incoming.Data with
  | (_, some e) => .error e
  | (d, none) =>
    match incoming.ErrorMessage with
    | some e => .ok { base with Data := d, Status := RunStatus.Errored, ErrorMessage := some e }
    | none =>
      .ok { base with
              Data := d
              Status := if incoming.Status = RunStatus.Unstarted then base.Status
                        else incoming.Status }

/-- Modelled from the spec: `models.RunResult.Merge` is declared outside
`adapters/bridge.go`.  The Go form of `MergeResult`: a value and an error; the
incoming result accompanies an error. -/
def RunResult.Merge (base incoming : RunResult) : RunResult × Option String :=
  match MergeResult base incoming with
  | .ok rr => (rr, none)
  | .error e => (incoming, some e)

end models

namespace adapters

open models

/-- Hexadecimal digit (upper case) of a number below sixteen. -/
def hexDigit (n : Nat) : Char :=
  if n < 10 then Char.ofNat (48 + n) else Char.ofNat (55 + n)

/-- The UTF-8 bytes of a character. -/
def utf8Bytes (c : Char) : List Nat :=
  let n := c.toNat
  if n < 128 then [n]
  else if n < 2048 then [192 + n / 64, 128 + n % 64]
  else if n < 65536 then [224 + n / 4096, 128 + n / 64 % 64, 128 + n % 64]
  else [240 + n / 262144, 128 + n / 4096 % 64, 128 + n / 64 % 64, 128 + n % 64]

/-- Characters a URL path keeps as they are: letters, digits and
`-_.~$&+,/:;=@`. -/
def pathKeeps (c : Char) : Bool :=
  c.isAlphanum || "-_.~$&+,/:;=@".data.contains c

/-- Percent-escaping of a URL path, character by character. -/
def escapePathChars : List Char → List Char
  | [] => []
  | c :: cs =>
    (if pathKeeps c then [c]
     else (utf8Bytes c).flatMap (fun b => ['%', hexDigit (b / 16), hexDigit (b % 16)])) ++
      escapePathChars cs

/-- The string form of a URL in the example environment:
`scheme://host/path?query#fragment`, each part written only when present, the
path percent-escaped and separated from a host by a slash. -/
def exampleURLString (u : WebURL) : String :=
  (if u.Scheme = "" then "" else u.Scheme ++ ":") ++
  (if u.Scheme = "" ∧ u.Host = "" then ""
   else (if u.Host = "" ∧ u.Path = "" then "" else "//") ++ u.Host) ++
  (if u.Path ≠ "" ∧ u.Path.data.head? ≠ some '/' ∧ u.Host ≠ "" then "/" else "") ++
  String.mk (escapePathChars u.Path.data) ++
  (if u.RawQuery = "" then "" else "?" ++ u.RawQuery) ++
  (if u.Fragment = "" then "" else "#" ++ u.Fragment)

/-- The decoder of the example environment: it reads the response documents of
the scenarios and rejects every other body. -/
def exampleUnmarshal (body : String) : Except String BridgeRunResult :=
  if body = "\x7b\"data\": \x7b\"result\": 42\x7d\x7d" then
    .ok { RunResult := { JobRunID := "", Data := JSON.obj [("result", JSON.num 42)],
                         Status := RunStatus.Unstarted, ErrorMessage := none } }
  else if body = "\x7b\"data\": \x7b\"result\": 42\x7d, \"status\": \"completed\"\x7d" then
    .ok { RunResult := { JobRunID := "", Data := JSON.obj [("result", JSON.num 42)],
                         Status := RunStatus.Completed, ErrorMessage := none } }
  else if body =
      "\x7b\"data\": \x7b\"result\": 42\x7d, \"status\": \"completed\", \"error\": \"boom\"\x7d" then
    .ok { RunResult := { JobRunID := "", Data := JSON.obj [("result", JSON.num 42)],
                         Status := RunStatus.Completed, ErrorMessage := some "boom" } }
  else .error "invalid character"

/-- The example environment: the merges above, the example string form of a
URL, the compact encoder, the example decoder, a request constructor that
accepts everything, and a transport that answers every request with `reply`. -/
def exampleEnv (reply : Except String http.Response) : Env :=
  { JSONMerge := JSON.Merge
    RunResultMerge := RunResult.Merge
    URLString := exampleURLString
    Unmarshal := exampleUnmarshal
    Marshal := fun j => .ok j.render
    NewRequestErr := fun _ _ => none
    Do := fun _ => reply }

/-- Example bridge without static params. -/
def exampleBridge : Bridge :=
  { BridgeType := { URL := { Scheme := "https", Host := "adapter.example", Path := "/run" },
                    OutgoingToken := "token" }
    Params := none }

/-- Example bridge with the static params `{"multiply": 100}`. -/
def exampleBridgeParams : Bridge :=
  { exampleBridge with Params := some (JSON.obj [("multiply", JSON.num 100)]) }

/-- Example input: run `run1` in progress with data `{"value": 5}`. -/
def exampleInput : RunResult :=
  { JobRunID := "run1", Data := JSON.obj [("value", JSON.num 5)],
    Status := RunStatus.InProgress, ErrorMessage := none }

/-- Example store without a base response URL. -/
def exampleStore : store.Store :=
  { Config := { BridgeResponseURL := {} } }

/-- Example store whose base response URL carries a query string. -/
def exampleStoreQuery : store.Store :=
  { Config := { BridgeResponseURL :=
      { Scheme := "http", Host := "node.example", Path := "/cb", RawQuery := "x=1" } } }

/-- Example store with a plain base response URL. -/
def exampleStoreURL : store.Store :=
  { Config := { BridgeResponseURL := { Scheme := "http", Host := "node.example" } } }

end adapters


/-! Properties of the adapter. -/

namespace adapters

open models

theorem Perform_of_newRun (env : Env) (ba : Bridge) (r : RunResult) (st : store.Store)
    (hnew : NewRun r) :
    ba.Perform env r st = ba.handleNewRun env r st.Config.BridgeResponseURL := by
  obtain ⟨h1, h2, h3⟩ := hnew
  unfold Bridge.Perform
  cases hs : r.Status <;> simp_all [RunStatus.Finished, RunStatus.isPendingBridge]

theorem mergeParams_jobRunID (env : Env) (ba : Bridge) (r input' : RunResult)
    (e : Option String) (h : ba.mergeParams env r = (input', e)) :
    input'.JobRunID = r.JobRunID := by
  unfold Bridge.mergeParams at h
  cases hp : ba.Params with
  | none => simp [hp] at h; rw [← h.1]
  | some params => simp [hp] at h; rw [← h.1]

theorem built_request (env : Env) (ba : Bridge) (body : String) :
    ((({ Method := "POST", URL := env.URLString ba.BridgeType.URL, Header := [], Body := body } :
        http.Request).SetHeader "Authorization"
          ("Bearer " ++ ba.BridgeType.OutgoingToken)).SetHeader
        "Content-Type" "application/json") = ba.request env body := by
  simp [http.Request.SetHeader, Bridge.request]

theorem post_of_encodes (env : Env) (ba : Bridge) (input : RunResult) (url : WebURL)
    (body : String) (h : ba.Encodes env input url body) :
    ba.postToExternalAdapter env input url =
      ((match env.Do (ba.request env body) with
        | .error err => .error ("POST request: " ++ err)
        | .ok resp =>
          if resp.StatusCode ≥ 400 then
            .error ("POST response: " ++ (fmtInt resp.StatusCode ++ " " ++ resp.Body))
          else
            match resp.ReadErr with
            | some err => .error err
            | none => .ok resp.Body), [ba.request env body]) := by
  obtain ⟨hm, hn⟩ := h
  unfold Bridge.postToExternalAdapter
  simp only [hm, NewRequest, hn, built_request]
  cases hd : env.Do (ba.request env body) with
  | error err => rfl
  | ok resp =>
    by_cases hc : resp.StatusCode ≥ 400
    · simp [hc]
    · cases hr : resp.ReadErr <;> simp [hc, hr]

theorem post_sent_of_encodes (env : Env) (ba : Bridge) (input : RunResult) (url : WebURL)
    (body : String) (h : ba.Encodes env input url body) :
    (ba.postToExternalAdapter env input url).2 = [ba.request env body] := by
  rw [post_of_encodes env ba input url body h]

theorem handleNewRun_of_params (env : Env) (ba : Bridge) (r input' : RunResult) (base : WebURL)
    (hparams : ba.mergeParams env r = (input', none)) :
    ba.handleNewRun env r base =
      (match ba.postToExternalAdapter env input' (responseURLFor base input'.JobRunID) with
       | (.error err, sent) => (baRunResultError input' "post to external adapter" err, sent)
       | (.ok body, sent) => (responseToRunResult env body input', sent)) := by
  unfold Bridge.handleNewRun
  rw [hparams]

theorem handleNewRun_answered (env : Env) (ba : Bridge) (r input' : RunResult) (base : WebURL)
    (resp : http.Response) (hparams : ba.mergeParams env r = (input', none))
    (hans : ba.Answers env input' (responseURLFor base input'.JobRunID) resp) :
    (ba.handleNewRun env r base).1 =
      if resp.StatusCode ≥ 400 then
        baRunResultError input' "post to external adapter"
          ("POST response: " ++ (fmtInt resp.StatusCode ++ " " ++ resp.Body))
      else
        match resp.ReadErr with
        | some err => baRunResultError input' "post to external adapter" err
        | none => responseToRunResult env resp.Body input' := by
  obtain ⟨body, henc, hdo⟩ := hans
  rw [handleNewRun_of_params env ba r input' base hparams,
    post_of_encodes env ba input' _ body henc, hdo]
  by_cases hc : resp.StatusCode ≥ 400
  · simp [hc]
  · cases hr : resp.ReadErr <;> simp [hc, hr]

theorem error_message_text (code body : String) :
    "ExternalBridge " ++ "post to external adapter" ++ ": " ++
        ("POST response: " ++ (code ++ " " ++ body)) =
      "ExternalBridge post to external adapter: POST response: " ++ code ++ " " ++ body := by
  apply String.ext
  simp [String.data_append]

/-- C1: a result whose status is terminal (`Completed` or `Errored`) is
returned as it is, with id, data, status and error unchanged, whatever the
bridge configuration and static params are, and no request is sent. -/
theorem Perform_terminal_identity (env : Env) (ba : Bridge) (r : RunResult)
    (st : store.Store)
    (h : r.Status = RunStatus.Completed ∨ r.Status = RunStatus.Errored) :
    ba.Perform env r st = (r, []) := by
  unfold Bridge.Perform
  rcases h with h | h <;> simp [h, RunStatus.Finished]

theorem Perform_terminal_identity_witness :
    exampleBridgeParams.Perform (exampleEnv (.error "unreachable"))
        { exampleInput with Status := RunStatus.Errored, ErrorMessage := some "failed" }
        exampleStoreURL =
      ({ JobRunID := "run1", Data := JSON.obj [("value", JSON.num 5)],
         Status := RunStatus.Errored, ErrorMessage := some "failed" }, []) :=
  Perform_terminal_identity _ _ _ _ (Or.inr rfl)

/-- C2: a result with status `PendingBridge` is returned with its status
replaced by `InProgress` and with id, data and error as they were (static
params are not merged in), and no request is sent. -/
theorem Perform_pendingBridge_resumes (env : Env) (ba : Bridge) (r : RunResult)
    (st : store.Store) (h : r.Status = RunStatus.PendingBridge) :
    ba.Perform env r st =
      ({ JobRunID := r.JobRunID, Data := r.Data, Status := RunStatus.InProgress,
         ErrorMessage := r.ErrorMessage }, []) := by
  unfold Bridge.Perform
  simp [h, RunStatus.Finished, RunStatus.isPendingBridge, resumeBridge]

theorem Perform_pendingBridge_resumes_witness :
    exampleBridgeParams.Perform (exampleEnv (.error "unreachable"))
        { exampleInput with Status := RunStatus.PendingBridge } exampleStoreURL =
      ({ JobRunID := "run1", Data := JSON.obj [("value", JSON.num 5)],
         Status := RunStatus.InProgress, ErrorMessage := none }, []) :=
  Perform_pendingBridge_resumes _ _ _ _ rfl

/-- C4: for a new-run input, a response with status 400 or more and body `b`
gives the input (with the static params merged in) marked `Errored`, with the
message `ExternalBridge post to external adapter: POST response: <code> <b>`,
which contains the decimal status code and the text of `b`; the data is that
of the input and the result does not depend on the decoder or on the merge of
results, so `b` is neither parsed nor merged. -/
theorem Perform_http_error (env : Env) (ba : Bridge) (r input' : RunResult)
    (st : store.Store) (resp : http.Response)
    (hnew : NewRun r)
    (hparams : ba.mergeParams env r = (input', none))
    (hans : ba.Answers env input'
      (responseURLFor st.Config.BridgeResponseURL input'.JobRunID) resp)
    (hcode : resp.StatusCode ≥ 400) :
    (ba.Perform env r st).1 =
        { JobRunID := r.JobRunID
          Data := input'.Data
          Status := RunStatus.Errored
          ErrorMessage := some ("ExternalBridge post to external adapter: POST response: " ++
            fmtInt resp.StatusCode ++ " " ++ resp.Body) } ∧
      (∃ m, (ba.Perform env r st).1.ErrorMessage = some m ∧
        (fmtInt resp.StatusCode).data <:+: m.data ∧ resp.Body.data <:+: m.data) ∧
      (∀ (u : String → Except String BridgeRunResult)
          (g : RunResult → RunResult → RunResult × Option String),
        (ba.Perform { env with Unmarshal := u, RunResultMerge := g } r st).1 =
          (ba.Perform env r st).1) := by
  have key : ∀ env' : Env, ba.mergeParams env' r = (input', none) →
      ba.Answers env' input' (responseURLFor st.Config.BridgeResponseURL input'.JobRunID) resp →
      (ba.Perform env' r st).1 =
        { JobRunID := r.JobRunID
          Data := input'.Data
          Status := RunStatus.Errored
          ErrorMessage := some ("ExternalBridge post to external adapter: POST response: " ++
            fmtInt resp.StatusCode ++ " " ++ resp.Body) } := by
    intro env' hp ha
    rw [Perform_of_newRun env' ba r st hnew,
      handleNewRun_answered env' ba r input' _ resp hp ha]
    simp only [hcode, if_true, baRunResultError, RunResult.WithError, error_message_text,
      mergeParams_jobRunID env' ba r input' none hp]
  refine ⟨key env hparams hans, ?_, ?_⟩
  · rw [key env hparams hans]
    refine ⟨_, rfl, ?_, ?_⟩
    · refine ⟨("ExternalBridge post to external adapter: POST response: ").data,
        (" " ++ resp.Body).data, ?_⟩
      simp [String.data_append]
    · refine ⟨("ExternalBridge post to external adapter: POST response: " ++
        fmtInt resp.StatusCode ++ " ").data, [], ?_⟩
      simp [String.data_append]
  · intro u g
    rw [key env hparams hans]
    apply key
    · exact hparams
    · obtain ⟨body, ⟨hm, hn⟩, hd⟩ := hans
      exact ⟨body, ⟨hm, hn⟩, hd⟩

theorem Perform_http_error_witness :
    (exampleBridge.Perform
        (exampleEnv (.ok { StatusCode := 500, Body := "server error", ReadErr := none }))
        exampleInput exampleStore).1 =
      { JobRunID := "run1"
        Data := JSON.obj [("value", JSON.num 5)]
        Status := RunStatus.Errored
        ErrorMessage :=
          some "ExternalBridge post to external adapter: POST response: 500 server error" } :=
  (Perform_http_error
    (exampleEnv (.ok { StatusCode := 500, Body := "server error", ReadErr := none }))
    exampleBridge exampleInput exampleInput exampleStore
    { StatusCode := 500, Body := "server error", ReadErr := none }
    (by decide) rfl ⟨_, ⟨rfl, rfl⟩, rfl⟩ (by decide)).1

theorem anon_responseURL (env : Env) (r : RunResult) (url : WebURL) :
    (bridgeOutgoing.anon env { RunResult := r, ResponseURL := url }).get? "responseURL" =
      if env.URLString url = "" then none else some (JSON.str (env.URLString url)) := by
  by_cases h : env.URLString url = "" <;>
    simp [bridgeOutgoing.anon, JSON.get?, JSON.lookup, h]

theorem Perform_sent_of_encodes (env : Env) (ba : Bridge) (r input' : RunResult)
    (st : store.Store) (body : String) (hnew : NewRun r)
    (hparams : ba.mergeParams env r = (input', none))
    (henc : ba.Encodes env input'
      (responseURLFor st.Config.BridgeResponseURL input'.JobRunID) body) :
    (ba.Perform env r st).2 = [ba.request env body] := by
  rw [Perform_of_newRun env ba r st hnew,
    handleNewRun_of_params env ba r input' _ hparams,
    post_of_encodes env ba input' _ body henc]
  cases env.Do (ba.request env body) with
  | error err => rfl
  | ok resp =>
    by_cases hc : resp.StatusCode ≥ 400
    · simp [hc]
    · cases hr : resp.ReadErr <;> simp [hc, hr]

/-- C5 (as amended): for a new-run input with job run id `j`, given that the
string form of the empty URL is empty and that of the extended URL is not, the
request sent carries the encoding of a payload whose `responseURL` field is
absent when the configured base URL is the empty URL, and otherwise is the
string form of the base URL with `/v2/runs/j` appended to its path. -/
theorem Perform_responseURL (env : Env) (ba : Bridge) (r input' : RunResult)
    (st : store.Store) (body : String) (hnew : NewRun r)
    (hparams : ba.mergeParams env r = (input', none))
    (henc : ba.Encodes env input'
      (responseURLFor st.Config.BridgeResponseURL input'.JobRunID) body)
    (hzero : env.URLString {} = "")
    (hpath : st.Config.BridgeResponseURL ≠ {} →
      env.URLString
        { st.Config.BridgeResponseURL with
            Path := st.Config.BridgeResponseURL.Path ++ ("/v2/runs/" ++ r.JobRunID) } ≠ "") :
    (ba.Perform env r st).2 = [ba.request env body] ∧
      (bridgeOutgoing.anon env
          { RunResult := input'
            ResponseURL := responseURLFor st.Config.BridgeResponseURL input'.JobRunID }).get?
          "responseURL" =
        (if st.Config.BridgeResponseURL = {} then none
         else some (JSON.str (env.URLString
          { st.Config.BridgeResponseURL with
              Path := st.Config.BridgeResponseURL.Path ++ ("/v2/runs/" ++ r.JobRunID) }))) := by
  have hj := mergeParams_jobRunID env ba r input' none hparams
  refine ⟨Perform_sent_of_encodes env ba r input' st body hnew hparams henc, ?_⟩
  rw [anon_responseURL, hj]
  by_cases hz : st.Config.BridgeResponseURL = {}
  · have hu : responseURLFor st.Config.BridgeResponseURL r.JobRunID = {} := by
      simp [responseURLFor, hz]
    rw [hu, if_pos hz, if_pos hzero]
  · have hu : responseURLFor st.Config.BridgeResponseURL r.JobRunID =
        { st.Config.BridgeResponseURL with
            Path := st.Config.BridgeResponseURL.Path ++ ("/v2/runs/" ++ r.JobRunID) } := by
      simp [responseURLFor, hz]
    rw [hu, if_neg hz, if_neg (hpath hz)]

theorem Perform_responseURL_witness :
    (exampleBridge.Perform
        (exampleEnv (.ok { StatusCode := 200, Body := "\x7b\"data\": \x7b\"result\": 42\x7d\x7d",
                           ReadErr := none }))
        exampleInput exampleStoreURL).2 =
      [exampleBridge.request (exampleEnv (.error "unused"))
        "\x7b\"id\":\"run1\",\"data\":\x7b\"value\":5\x7d,\"responseURL\":\"http://node.example/v2/runs/run1\"\x7d"] ∧
    (bridgeOutgoing.anon (exampleEnv (.error "unused"))
        { RunResult := exampleInput
          ResponseURL := responseURLFor exampleStoreURL.Config.BridgeResponseURL
            exampleInput.JobRunID }).get? "responseURL" =
      some (JSON.str "http://node.example/v2/runs/run1") :=
  Perform_responseURL
    (exampleEnv (.ok { StatusCode := 200, Body := "\x7b\"data\": \x7b\"result\": 42\x7d\x7d",
                       ReadErr := none }))
    exampleBridge exampleInput exampleInput exampleStoreURL
    "\x7b\"id\":\"run1\",\"data\":\x7b\"value\":5\x7d,\"responseURL\":\"http://node.example/v2/runs/run1\"\x7d"
    (by decide) rfl ⟨rfl, rfl⟩ rfl (fun _ => by decide)

/-- C5 (counterexample): with the base URL `http://node.example/cb?x=1` and run
`run1` the payload sent carries the response URL
`http://node.example/cb/v2/runs/run1?x=1`, which is not the base followed by
`/v2/runs/run1`. -/
theorem responseURL_query_counterexample :
    (exampleBridge.Perform
        (exampleEnv (.ok { StatusCode := 200, Body := "\x7b\"data\": \x7b\"result\": 42\x7d\x7d",
                           ReadErr := none }))
        exampleInput exampleStoreQuery).2.map (fun q => q.Body) =
      ["\x7b\"id\":\"run1\",\"data\":\x7b\"value\":5\x7d,\"responseURL\":\"http://node.example/cb/v2/runs/run1?x=1\"\x7d"] ∧
    exampleURLString exampleStoreQuery.Config.BridgeResponseURL ++ "/v2/runs/" ++
        exampleInput.JobRunID =
      "http://node.example/cb?x=1/v2/runs/run1" ∧
    (bridgeOutgoing.anon (exampleEnv (.error "unused"))
        { RunResult := exampleInput
          ResponseURL := responseURLFor exampleStoreQuery.Config.BridgeResponseURL
            exampleInput.JobRunID }).get? "responseURL" ≠
      some (JSON.str (exampleURLString exampleStoreQuery.Config.BridgeResponseURL ++
        "/v2/runs/" ++ exampleInput.JobRunID)) := by
  refine ⟨by decide, by decide, ?_⟩
  intro h
  have h2 : (JSON.str "http://node.example/cb/v2/runs/run1?x=1") =
      JSON.str "http://node.example/cb?x=1/v2/runs/run1" := Option.some.inj h
  have h3 : "http://node.example/cb/v2/runs/run1?x=1" =
      "http://node.example/cb?x=1/v2/runs/run1" := JSON.str.inj h2
  exact absurd h3 (by decide)

/-- C6: for any RunResult and response URL, `MarshalJSON` encodes exactly the
JSON object with the keys `id` (the job run id), `data` (the data) and
`responseURL` (present if and only if the string form of the URL is not
empty); when that object is encoded and the request accepted,
`postToExternalAdapter` hands the HTTP client the request carrying its
encoding, and when it cannot be encoded nothing is sent; RunResults that differ
only in status and error give the same encoded payload and the same post. -/
theorem outgoing_payload_projection (env : Env) (ba : Bridge) (r : RunResult) (url : WebURL)
    (s : RunStatus) (e : Option String) :
    bridgeOutgoing.MarshalJSON env { RunResult := r, ResponseURL := url } =
        env.Marshal (JSON.obj (("id", JSON.str r.JobRunID) :: ("data", r.Data) ::
          (if env.URLString url = "" then []
           else [("responseURL", JSON.str (env.URLString url))]))) ∧
      (∀ body,
        env.Marshal (JSON.obj (("id", JSON.str r.JobRunID) :: ("data", r.Data) ::
          (if env.URLString url = "" then []
           else [("responseURL", JSON.str (env.URLString url))]))) = .ok body →
        env.NewRequestErr "POST" (env.URLString ba.BridgeType.URL) = none →
        (ba.postToExternalAdapter env r url).2 = [ba.request env body]) ∧
      ((∀ body,
          env.Marshal (JSON.obj (("id", JSON.str r.JobRunID) :: ("data", r.Data) ::
            (if env.URLString url = "" then []
             else [("responseURL", JSON.str (env.URLString url))]))) ≠ .ok body) →
        (ba.postToExternalAdapter env r url).2 = []) ∧
      (bridgeOutgoing.anon env { RunResult := r, ResponseURL := url }).isObj = true ∧
      (bridgeOutgoing.anon env { RunResult := r, ResponseURL := url }).keys =
        "id" :: "data" :: (if env.URLString url = "" then [] else ["responseURL"]) ∧
      (bridgeOutgoing.anon env { RunResult := r, ResponseURL := url }).get? "id" =
        some (JSON.str r.JobRunID) ∧
      (bridgeOutgoing.anon env { RunResult := r, ResponseURL := url }).get? "data" =
        some r.Data ∧
      (bridgeOutgoing.anon env { RunResult := r, ResponseURL := url }).get? "responseURL" =
        (if env.URLString url = "" then none else some (JSON.str (env.URLString url))) ∧
      ("responseURL" ∈ (bridgeOutgoing.anon env { RunResult := r, ResponseURL := url }).keys ↔
        env.URLString url ≠ "") ∧
      bridgeOutgoing.MarshalJSON env
          { RunResult := { r with Status := s, ErrorMessage := e }, ResponseURL := url } =
        bridgeOutgoing.MarshalJSON env { RunResult := r, ResponseURL := url } ∧
      ba.postToExternalAdapter env { r with Status := s, ErrorMessage := e } url =
        ba.postToExternalAdapter env r url := by
  refine ⟨rfl, ?_, ?_, rfl, ?_, ?_, ?_, anon_responseURL env r url, ?_, rfl, rfl⟩
  · intro body hm hn
    exact post_sent_of_encodes env ba r url body ⟨hm, hn⟩
  · intro hno
    cases hm : bridgeOutgoing.MarshalJSON env { RunResult := r, ResponseURL := url } with
    | error err =>
      unfold Bridge.postToExternalAdapter
      rw [hm]
    | ok body => exact absurd hm (hno body)
  · by_cases h : env.URLString url = "" <;> simp [bridgeOutgoing.anon, JSON.keys, h]
  · simp [bridgeOutgoing.anon, JSON.get?, JSON.lookup]
  · simp [bridgeOutgoing.anon, JSON.get?, JSON.lookup]
  · by_cases h : env.URLString url = "" <;> simp [bridgeOutgoing.anon, JSON.keys, h]

theorem outgoing_payload_projection_witness :
    bridgeOutgoing.MarshalJSON (exampleEnv (.error "unused"))
        { RunResult := { exampleInput with Status := RunStatus.Errored,
                                           ErrorMessage := some "internal failure" }
          ResponseURL := exampleStoreQuery.Config.BridgeResponseURL } =
      .ok "\x7b\"id\":\"run1\",\"data\":\x7b\"value\":5\x7d,\"responseURL\":\"http://node.example/cb?x=1\"\x7d" ∧
    (exampleBridge.postToExternalAdapter (exampleEnv (.error "connection refused"))
        { exampleInput with Status := RunStatus.Errored,
                            ErrorMessage := some "internal failure" }
        exampleStoreQuery.Config.BridgeResponseURL).2 =
      [exampleBridge.request (exampleEnv (.error "connection refused"))
        "\x7b\"id\":\"run1\",\"data\":\x7b\"value\":5\x7d,\"responseURL\":\"http://node.example/cb?x=1\"\x7d"] :=
  ⟨(outgoing_payload_projection (exampleEnv (.error "unused")) exampleBridge
      { exampleInput with Status := RunStatus.Errored, ErrorMessage := some "internal failure" }
      exampleStoreQuery.Config.BridgeResponseURL RunStatus.InProgress none).1,
   (outgoing_payload_projection (exampleEnv (.error "connection refused")) exampleBridge
      { exampleInput with Status := RunStatus.Errored, ErrorMessage := some "internal failure" }
      exampleStoreQuery.Config.BridgeResponseURL RunStatus.InProgress none).2.1 _ rfl rfl⟩

/-- C7: for a new-run input whose static params, if any, merge successfully,
the request sent carries the encoding of a payload whose `data` field is the
merge of the params into the data of the input (the data as receiver, the
params as the incoming side), and the data of the input itself when no static
params are configured. -/
theorem Perform_payload_data (env : Env) (ba : Bridge) (r input' : RunResult)
    (st : store.Store) (body : String) (hnew : NewRun r)
    (hparams : ba.mergeParams env r = (input', none))
    (henc : ba.Encodes env input'
      (responseURLFor st.Config.BridgeResponseURL input'.JobRunID) body) :
    (ba.Perform env r st).2 = [ba.request env body] ∧
      (bridgeOutgoing.anon env
          { RunResult := input'
            ResponseURL := responseURLFor st.Config.BridgeResponseURL input'.JobRunID }).get?
          "data" =
        some (match ba.Params with
              | none => r.Data
              | some params => (env.JSONMerge r.Data params).1) := by
  refine ⟨Perform_sent_of_encodes env ba r input' st body hnew hparams henc, ?_⟩
  have hd : input'.Data = (match ba.Params with
              | none => r.Data
              | some params => (env.JSONMerge r.Data params).1) := by
    unfold Bridge.mergeParams at hparams
    cases hp : ba.Params with
    | none => simp [hp] at hparams; rw [← hparams]
    | some params => simp [hp] at hparams; rw [← hparams.1]
  rw [← hd]
  simp [bridgeOutgoing.anon, JSON.get?, JSON.lookup]

theorem Perform_payload_data_witness :
    (exampleBridgeParams.Perform (exampleEnv (.error "connection refused"))
        exampleInput exampleStore).2 =
      [exampleBridgeParams.request (exampleEnv (.error "connection refused"))
        "\x7b\"id\":\"run1\",\"data\":\x7b\"value\":5,\"multiply\":100\x7d\x7d"] ∧
    (bridgeOutgoing.anon (exampleEnv (.error "connection refused"))
        { RunResult := { exampleInput with
            Data := JSON.obj [("value", JSON.num 5), ("multiply", JSON.num 100)] }
          ResponseURL := {} }).get? "data" =
      some (JSON.obj [("value", JSON.num 5), ("multiply", JSON.num 100)]) :=
  Perform_payload_data (exampleEnv (.error "connection refused")) exampleBridgeParams
    exampleInput
    { exampleInput with Data := JSON.obj [("value", JSON.num 5), ("multiply", JSON.num 100)] }
    exampleStore "\x7b\"id\":\"run1\",\"data\":\x7b\"value\":5,\"multiply\":100\x7d\x7d"
    (by decide) rfl ⟨rfl, rfl⟩

/-- C9 (as amended): for a new-run input, when the transport answers with a
response below 400 whose body the decoder rejects with cause `c`, the result
is `Errored` with the message `ExternalBridge unmarshaling JSON: c`; the
message starts with `ExternalBridge unmarshaling JSON`. -/
theorem Perform_unmarshal_failure (env : Env) (ba : Bridge) (r input' : RunResult)
    (st : store.Store) (resp : http.Response) (c : String)
    (hnew : NewRun r)
    (hparams : ba.mergeParams env r = (input', none))
    (hans : ba.Answers env input'
      (responseURLFor st.Config.BridgeResponseURL input'.JobRunID) resp)
    (hcode : resp.StatusCode < 400) (hread : resp.ReadErr = none)
    (hparse : env.Unmarshal resp.Body = .error c) :
    (ba.Perform env r st).1 =
        { JobRunID := r.JobRunID
          Data := input'.Data
          Status := RunStatus.Errored
          ErrorMessage := some ("ExternalBridge unmarshaling JSON: " ++ c) } ∧
      ("ExternalBridge unmarshaling JSON").data <+:
        ("ExternalBridge unmarshaling JSON: " ++ c).data := by
  constructor
  · rw [Perform_of_newRun env ba r st hnew,
      handleNewRun_answered env ba r input' _ resp hparams hans]
    have hc : ¬ resp.StatusCode ≥ 400 := by omega
    simp only [hc, if_false, hread, responseToRunResult, hparse, baRunResultError,
      RunResult.WithError, mergeParams_jobRunID env ba r input' none hparams]
    congr 2
  · refine ⟨(": " ++ c).data, ?_⟩
    simp [String.data_append]

theorem Perform_unmarshal_failure_witness :
    (exampleBridge.Perform
        (exampleEnv (.ok { StatusCode := 200, Body := "not json", ReadErr := none }))
        exampleInput exampleStore).1 =
      { JobRunID := "run1"
        Data := JSON.obj [("value", JSON.num 5)]
        Status := RunStatus.Errored
        ErrorMessage := some "ExternalBridge unmarshaling JSON: invalid character" } :=
  (Perform_unmarshal_failure
    (exampleEnv (.ok { StatusCode := 200, Body := "not json", ReadErr := none }))
    exampleBridge exampleInput exampleInput exampleStore
    { StatusCode := 200, Body := "not json", ReadErr := none } "invalid character"
    (by decide) rfl ⟨_, ⟨rfl, rfl⟩, rfl⟩ (by decide) rfl rfl).1

/-- C9 (counterexample): for the body `not json` the message is
`ExternalBridge unmarshaling JSON: invalid character`, which does not start
with `unmarshaling JSON`. -/
theorem unmarshal_message_counterexample :
    (exampleBridge.Perform
        (exampleEnv (.ok { StatusCode := 200, Body := "not json", ReadErr := none }))
        exampleInput exampleStore).1.ErrorMessage =
      some "ExternalBridge unmarshaling JSON: invalid character" ∧
    ¬ ("unmarshaling JSON").data <+:
        ("ExternalBridge unmarshaling JSON: invalid character").data := by
  refine ⟨rfl, ?_⟩
  decide

/-- C10 (as amended): for a new-run input, a response with status 400 or more
gives an `Errored` result whose message is
`ExternalBridge post to external adapter: <cause>` with the cause
`POST response: <code> <body>` and whose data is that of the input, the body
being neither parsed nor merged; a response with any status below 400 that is
read without error is parsed and merged like a successful one. -/
theorem Perform_status_boundary (env : Env) (ba : Bridge) (r input' : RunResult)
    (st : store.Store) (resp : http.Response)
    (hnew : NewRun r)
    (hparams : ba.mergeParams env r = (input', none))
    (hans : ba.Answers env input'
      (responseURLFor st.Config.BridgeResponseURL input'.JobRunID) resp) :
    (resp.StatusCode ≥ 400 →
        (ba.Perform env r st).1.Status = RunStatus.Errored ∧
        (ba.Perform env r st).1.ErrorMessage =
          some ("ExternalBridge post to external adapter: " ++
            ("POST response: " ++ (fmtInt resp.StatusCode ++ " " ++ resp.Body))) ∧
        (ba.Perform env r st).1.Data = input'.Data) ∧
      (resp.StatusCode < 400 → resp.ReadErr = none →
        (ba.Perform env r st).1 = responseToRunResult env resp.Body input') := by
  rw [Perform_of_newRun env ba r st hnew,
    handleNewRun_answered env ba r input' _ resp hparams hans]
  constructor
  · intro hcode
    simp only [hcode, if_true, baRunResultError, RunResult.WithError, true_and]
    refine ⟨?_, trivial⟩
    congr 1
  · intro hcode hread
    have hc : ¬ resp.StatusCode ≥ 400 := by omega
    simp [hc, hread]

theorem Perform_status_boundary_witness :
    (exampleBridge.Perform
        (exampleEnv (.ok { StatusCode := 404, Body := "not found", ReadErr := none }))
        exampleInput exampleStore).1.Status = RunStatus.Errored ∧
    (exampleBridge.Perform
        (exampleEnv (.ok { StatusCode := 404, Body := "not found", ReadErr := none }))
        exampleInput exampleStore).1.ErrorMessage =
      some "ExternalBridge post to external adapter: POST response: 404 not found" ∧
    (exampleBridge.Perform
        (exampleEnv (.ok { StatusCode := 404, Body := "not found", ReadErr := none }))
        exampleInput exampleStore).1.Data = JSON.obj [("value", JSON.num 5)] :=
  (Perform_status_boundary
    (exampleEnv (.ok { StatusCode := 404, Body := "not found", ReadErr := none }))
    exampleBridge exampleInput exampleInput exampleStore
    { StatusCode := 404, Body := "not found", ReadErr := none }
    (by decide) rfl ⟨_, ⟨rfl, rfl⟩, rfl⟩).1 (by decide)

/-- C10 (counterexample): a response with status 300, outside 200..299, whose
body is a well-formed result is parsed and merged: the result is not `Errored`
and carries the merged data. -/
theorem non_2xx_counterexample :
    ¬ ((200 : Int) ≤ 300 ∧ (300 : Int) ≤ 299) ∧
    (exampleBridge.Perform
        (exampleEnv (.ok { StatusCode := 300, Body := "\x7b\"data\": \x7b\"result\": 42\x7d\x7d",
                           ReadErr := none }))
        exampleInput exampleStore).1 =
      { JobRunID := "run1"
        Data := JSON.obj [("value", JSON.num 5), ("result", JSON.num 42)]
        Status := RunStatus.InProgress
        ErrorMessage := none } ∧
    (exampleBridge.Perform
        (exampleEnv (.ok { StatusCode := 300, Body := "\x7b\"data\": \x7b\"result\": 42\x7d\x7d",
                           ReadErr := none }))
        exampleInput exampleStore).1.Status ≠ RunStatus.Errored := by
  refine ⟨by decide, rfl, by decide⟩

end adapters
